import Mathlib

set_option maxRecDepth 8000

/-!
Formal model of `generate_icon.py`, the MacClean app-icon generator.

The script has two parts:

* `create_icon(size)`: draws a single RGBA raster of the given size with PIL
  primitives (gradients, rounded rectangles, lines, ellipses, polygons),
  seeding the global `random` generator with 42 to place texture dots.
* `main()`: renders a 1024x1024 master with `create_icon`, writes it and ten
  Lanczos-resampled variants into the iconset directory, and writes the
  `Contents.json` manifest.

The embedding below models `main` as a trace of filesystem operations over a
symbolic image algebra, and `create_icon` as an executable pipeline that
threads the pseudo-random-generator state and produces the list of drawing
operations together with a pixel-level evaluator for them.

Modelling conventions (stated once here, referenced by the definitions):

* Python floats are modelled as exact rationals (`ℚ`); `int(x)` is truncation
  toward zero.  All constants in the script are decimal literals, so this is
  exact up to the 2^-53 relative rounding of binary64, which is far below the
  pixel-coordinate margins used in any theorem of this file.
* The wiper tilt uses `cos(-35*pi/180)` and `sin(-35*pi/180)`, the only
  irrational quantities in the script.  They are kept as parameters `c`, `s`
  of the render; theorems about pixel values hold for every `c ∈ [0,1]`,
  `s ∈ [-1,0]`, which contains the true values (cos ≈ 0.8192, sin ≈ -0.5736).
* PIL raster semantics (which pixels a primitive touches, how `paste` and
  `alpha_composite` blend) is an external dependency; it is modelled by
  explicit coverage predicates and integer blend formulas documented at each
  definition.  `ImageDraw` primitives on an RGBA image replace the pixel
  value outright (no blending), which the evaluator reproduces.
* CPython's `random` module is modelled as a deterministic state machine with
  the same interface (`seed` makes the state a function of the seed alone,
  each `randint` advances the state); the Mersenne-Twister internals are
  abstracted to a 64-bit LCG, which none of the theorems depend on beyond
  that interface.
-/

namespace MacClean

/-! ## Symbolic image algebra and the filesystem trace of `main` -/

/-- Resampling filters that can be passed to `Image.resize`.  `main` uses
`Image.LANCZOS`; `nearest` is included so "not nearest-neighbour" is
expressible. -/
inductive ResampleFilter where
  | lanczos
  | nearest
deriving DecidableEq, Repr

/-- Symbolic description of an in-memory image:  the `create_icon(n)` raster,
an image loaded from a file (used only by the spec-modelled variant), or the
result of `Image.resize`. -/
inductive ImgD where
  | icon (n : ℕ)
  | file (path : String)
  | resized (src : ImgD) (w h : ℕ) (f : ResampleFilter)
deriving DecidableEq, Repr

/-- Pixel width of a described image (`create_icon(n)` returns an n×n canvas;
a `file` image has unknown statically-declared width, modelled as 0). -/
def ImgD.width : ImgD → ℕ
  | .icon n => n
  | .file _ => 0
  | .resized _ w _ _ => w

/-- Pixel height of a described image. -/
def ImgD.height : ImgD → ℕ
  | .icon n => n
  | .file _ => 0
  | .resized _ _ h _ => h

/-- Modelled Pillow semantics of `Image.resize` at the byte level: resizing
an image to its own size with the default full box short-circuits to
`self.copy()` (and the Lanczos kernel at scale 1 is the identity anyway), so
a resize record whose target equals its source's dimensions denotes the same
bytes as its source.  `bytes` collapses such identity resizes, giving the
byte content an image description denotes. -/
def ImgD.bytes : ImgD → ImgD
  | .icon n => .icon n
  | .file p => .file p
  | .resized src w h f =>
      let sb := src.bytes
      if w = sb.width ∧ h = sb.height then sb else .resized sb w h f

/-- One manifest entry appended by the export loop of `main`
(lines 345-350 of the script). -/
structure IconEntry where
  filename : String
  idiom : String
  scale : String
  size : String
deriving DecidableEq, Repr

/-- The `info` block of `Contents.json` (lines 356-359). -/
structure ContentsInfo where
  author : String
  version : ℕ
deriving DecidableEq, Repr

/-- The whole `Contents.json` document (lines 354-360). -/
structure Contents where
  images : List IconEntry
  info : ContentsInfo
deriving DecidableEq, Repr

/-- Filesystem effects performed by `main`. -/
inductive FSOp where
  | makedirs (path : String)
  | save (path : String) (img : ImgD)
  | writeContents (path : String) (c : Contents)
deriving DecidableEq, Repr

/-- The hard-coded list of (logical size, scale) pairs (lines 312-318). -/
def sizes : List (ℕ × ℕ) :=
  [(16, 1), (16, 2), (32, 1), (32, 2), (128, 1), (128, 2),
   (256, 1), (256, 2), (512, 1), (512, 2)]

/-- The iconset directory (line 321). -/
def iconset_path : String := "MacClean/Assets.xcassets/AppIcon.appiconset"

/-- `os.path.join` for the two-component joins used by the script. -/
def joinPath (d f : String) : String := d ++ "/" ++ f

/-- The output filename built at lines 334-337:
`icon_{S}x{S}` then `@{K}x` exactly when the scale exceeds 1, then `.png`. -/
def filename_for (S K : ℕ) : String :=
  ("icon_" ++ toString S ++ "x" ++ toString S
    ++ (if 1 < K then "@" ++ toString K ++ "x" else "")) ++ ".png"

/-- The `images` array accumulated by the export loop (lines 345-350). -/
def contents_images : List IconEntry :=
  sizes.map fun p =>
    { filename := filename_for p.1 p.2
      idiom := "mac"
      scale := toString p.2 ++ "x"
      size := toString p.1 ++ "x" ++ toString p.1 }

/-- The manifest document written to `Contents.json` (lines 354-363). -/
def contents_json : Contents :=
  { images := contents_images, info := { author := "xcode", version := 1 } }

/-- The save operations of the export loop (lines 332-343): each icon is the
master resized to `base_size * scale` square with `Image.LANCZOS`. -/
def export_saves : List FSOp :=
  sizes.map fun p =>
    FSOp.save (joinPath iconset_path (filename_for p.1 p.2))
      (ImgD.resized (ImgD.icon 1024) (p.1 * p.2) (p.1 * p.2) ResampleFilter.lanczos)

/-- The filesystem trace of one run of `main` (lines 308-371): create the
iconset directory, save the raw 1024x1024 master as `icon_512x512@2x.png`,
run the export loop, write `Contents.json`, save the preview. -/
def main_trace : List FSOp :=
  FSOp.makedirs iconset_path
    :: FSOp.save (joinPath iconset_path "icon_512x512@2x.png") (ImgD.icon 1024)
    :: export_saves
    ++ [FSOp.writeContents (joinPath iconset_path "Contents.json") contents_json,
        FSOp.save "icon_preview.png" (ImgD.icon 1024)]

/-- Whether path `p` names a file directly inside directory `dir`
(that is, `p` starts with `dir` followed by a path separator). -/
def inDir (dir p : String) : Bool :=
  p.data.take (dir.data.length + 1) == dir.data ++ ['/']

/-- The filename of `p` relative to directory `dir`. -/
def baseName (dir p : String) : String :=
  String.mk (p.data.drop (dir.data.length + 1))

/-- Filenames of all images saved into the iconset directory by `main`
(paths under `iconset_path`, with the directory prefix stripped). -/
def savedIconsetFiles : List String :=
  main_trace.filterMap fun op =>
    match op with
    | FSOp.save p _ =>
        if inDir iconset_path p then some (baseName iconset_path p) else none
    | _ => none

/-- The successive image contents saved to one target path, in trace order. -/
def savesTo (target : String) : List ImgD :=
  main_trace.filterMap fun op =>
    match op with
    | FSOp.save p img => if p = target then some img else none
    | _ => none

/-- Modelled from the spec: the image-from-file variant of `main` is described
in the spec (§4.2, §6, §7) but its script is not in `src/`.  Given the set of
existing files and the optional CLI argument, it resolves the source path
(defaulting to a fixed conventional filename), and when the source image is
missing it exits with status 1 producing no filesystem effects; otherwise it
creates the output directory and exports the fixed size set from the loaded
source, exiting 0. -/
def main_file_variant (existing : List String) (arg : Option String) :
    ℕ × List FSOp :=
  let src := arg.getD "source.png"
  if src ∈ existing then
    (0, FSOp.makedirs iconset_path
          :: (sizes.map fun p =>
               FSOp.save (joinPath iconset_path (filename_for p.1 p.2))
                 (ImgD.resized (ImgD.file src) (p.1 * p.2) (p.1 * p.2)
                   ResampleFilter.lanczos))
          ++ [FSOp.writeContents (joinPath iconset_path "Contents.json") contents_json])
  else (1, [])

/-! ## Pixel-level model of `create_icon` -/

/-- RGBA colour with 8-bit channels modelled as naturals. -/
structure RGBA where
  r : ℕ
  g : ℕ
  b : ℕ
  a : ℕ
deriving DecidableEq, Repr

/-- Truncation toward zero: the semantics of Python's `int()` on floats. -/
def pyInt (q : ℚ) : ℤ := if q < 0 then -⌊-q⌋ else ⌊q⌋

/-- One PIL `ImageDraw` primitive, with the exact arguments the script
passes (coordinates are rationals, see the float-modelling convention in the
header). -/
inductive Op where
  | rect (x1 y1 x2 y2 : ℚ) (c : RGBA)
  | ellipse (x1 y1 x2 y2 : ℚ) (c : RGBA)
  | lineSeg (x1 y1 x2 y2 : ℚ) (w : ℕ) (c : RGBA)
  | poly (pts : List (ℚ × ℚ)) (c : RGBA)
deriving DecidableEq, Repr

/-- The fill colour of a drawing operation. -/
def Op.color : Op → RGBA
  | .rect _ _ _ _ c => c
  | .ellipse _ _ _ _ c => c
  | .lineSeg _ _ _ _ _ c => c
  | .poly _ c => c

/-- Modelled PIL semantics: `draw.rectangle([x1,y1,x2,y2])` fills the integer
points of the closed box (PIL includes both corners). -/
def rectCovers (px py x1 y1 x2 y2 : ℚ) : Prop :=
  x1 ≤ px ∧ px ≤ x2 ∧ y1 ≤ py ∧ py ≤ y2

instance (px py x1 y1 x2 y2 : ℚ) : Decidable (rectCovers px py x1 y1 x2 y2) := by
  unfold rectCovers; infer_instance

/-- Modelled PIL semantics: `draw.ellipse([x1,y1,x2,y2])` fills the points of
the closed ellipse inscribed in the box; the inequality is the standard
ellipse equation cleared of denominators, and the bounding-box conjuncts keep
degenerate (zero-radius) boxes covering only their own points, matching PIL's
one-pixel ellipses. -/
def ellipseCovers (px py x1 y1 x2 y2 : ℚ) : Prop :=
  ((y2 - y1) * (2 * px - (x1 + x2)))^2 + ((x2 - x1) * (2 * py - (y1 + y2)))^2
      ≤ ((x2 - x1) * (y2 - y1))^2 ∧
  |2 * px - (x1 + x2)| ≤ x2 - x1 ∧ |2 * py - (y1 + y2)| ≤ y2 - y1

instance (px py x1 y1 x2 y2 : ℚ) : Decidable (ellipseCovers px py x1 y1 x2 y2) := by
  unfold ellipseCovers; infer_instance

/-- Modelled PIL semantics: `draw.line` with width `w` covers the points at
distance at most `max 1 w / 2` from the carrying line, inside the segment's
bounding box enlarged by that half-width (`w = 0` and `w = 1` both draw a
one-pixel line).  The distance condition is squared to stay rational. -/
def segCovers (px py x1 y1 x2 y2 : ℚ) (w : ℕ) : Prop :=
  (x1 - ((max 1 w : ℕ) : ℚ) / 2 ≤ px ∨ x2 - ((max 1 w : ℕ) : ℚ) / 2 ≤ px) ∧
  (px ≤ x1 + ((max 1 w : ℕ) : ℚ) / 2 ∨ px ≤ x2 + ((max 1 w : ℕ) : ℚ) / 2) ∧
  (y1 - ((max 1 w : ℕ) : ℚ) / 2 ≤ py ∨ y2 - ((max 1 w : ℕ) : ℚ) / 2 ≤ py) ∧
  (py ≤ y1 + ((max 1 w : ℕ) : ℚ) / 2 ∨ py ≤ y2 + ((max 1 w : ℕ) : ℚ) / 2) ∧
  ((x2 - x1) * (y1 - py) - (x1 - px) * (y2 - y1))^2
      ≤ (((max 1 w : ℕ) : ℚ) / 2)^2 * ((x2 - x1)^2 + (y2 - y1)^2)

instance (px py x1 y1 x2 y2 : ℚ) (w : ℕ) :
    Decidable (segCovers px py x1 y1 x2 y2 w) := by
  unfold segCovers; infer_instance

/-- All ordered pairs of (distinct positions of) elements of a list. -/
def pairsOf {α : Type} : List α → List (α × α)
  | [] => []
  | a :: t => (t.map fun b => (a, b)) ++ pairsOf t

/-- All ordered triples of (distinct positions of) elements of a list. -/
def triplesOf {α : Type} : List α → List (α × α × α)
  | [] => []
  | a :: t => ((pairsOf t).map fun q => (a, q.1, q.2)) ++ triplesOf t

/-- Twice the signed area of the triangle on points `a b c`. -/
def cross2 (a b c : ℚ × ℚ) : ℚ :=
  (b.1 - a.1) * (c.2 - a.2) - (b.2 - a.2) * (c.1 - a.1)

/-- Membership in the closed triangle `a b c` (either orientation). -/
def inTriangle (p a b c : ℚ × ℚ) : Prop :=
  (0 ≤ cross2 a b p ∧ 0 ≤ cross2 b c p ∧ 0 ≤ cross2 c a p) ∨
  (cross2 a b p ≤ 0 ∧ cross2 b c p ≤ 0 ∧ cross2 c a p ≤ 0)

instance (p a b c : ℚ × ℚ) : Decidable (inTriangle p a b c) := by
  unfold inTriangle; infer_instance

/-- Modelled PIL semantics: `draw.polygon(pts)` fills the points of the
closed convex hull of the vertices (by Caratheodory in the plane, the union
of all vertex triangles), restricted to the vertex bounding box. -/
def polyCovers (px py : ℚ) (pts : List (ℚ × ℚ)) : Prop :=
  (∃ q ∈ pts, q.1 ≤ px) ∧ (∃ q ∈ pts, px ≤ q.1) ∧
  (∃ q ∈ pts, q.2 ≤ py) ∧ (∃ q ∈ pts, py ≤ q.2) ∧
  ∃ t ∈ triplesOf pts, inTriangle (px, py) t.1 t.2.1 t.2.2

instance (px py : ℚ) (pts : List (ℚ × ℚ)) : Decidable (polyCovers px py pts) := by
  unfold polyCovers; infer_instance

/-- Whether a drawing operation touches the point `(px, py)`. -/
def coversP (op : Op) (px py : ℚ) : Prop :=
  match op with
  | .rect x1 y1 x2 y2 _ => rectCovers px py x1 y1 x2 y2
  | .ellipse x1 y1 x2 y2 _ => ellipseCovers px py x1 y1 x2 y2
  | .lineSeg x1 y1 x2 y2 w _ => segCovers px py x1 y1 x2 y2 w
  | .poly pts _ => polyCovers px py pts

instance (op : Op) (px py : ℚ) : Decidable (coversP op px py) :=
  match op with
  | .rect x1 y1 x2 y2 _ => inferInstanceAs (Decidable (rectCovers px py x1 y1 x2 y2))
  | .ellipse x1 y1 x2 y2 _ => inferInstanceAs (Decidable (ellipseCovers px py x1 y1 x2 y2))
  | .lineSeg x1 y1 x2 y2 w _ => inferInstanceAs (Decidable (segCovers px py x1 y1 x2 y2 w))
  | .poly pts _ => inferInstanceAs (Decidable (polyCovers px py pts))

/-- Evaluate a list of drawing operations at a point.  An `ImageDraw`
primitive on an RGBA image replaces the covered pixel's value outright
(PIL does not alpha-blend draw calls). -/
def paint (ops : List Op) (px py : ℚ) (v : RGBA) : RGBA :=
  ops.foldl (fun acc op => if coversP op px py then op.color else acc) v

/-- Modelled PIL semantics of one channel of `Image.paste(src, mask=m)`:
linear blend by the mask value. -/
def blend (d srcc m : ℕ) : ℕ := (d * (255 - m) + srcc * m) / 255

/-- `Image.paste` of a source pixel over a destination pixel under mask
value `m` (both the colour and alpha bands are blended). -/
def pasteMask (dst srcp : RGBA) (m : ℕ) : RGBA :=
  ⟨blend dst.r srcp.r m, blend dst.g srcp.g m, blend dst.b srcp.b m,
   blend dst.a srcp.a m⟩

/-- Modelled PIL semantics of `Image.alpha_composite(dst, src)`, source-over
with 8-bit integer arithmetic.  The alpha channel is the standard
`src.a + dst.a * (255 - src.a) / 255`; the colour channels use a simplified
integer model of premultiplied compositing (no theorem in this file depends
on a colour channel of a composited pixel). -/
def alphaComposite (dst srcp : RGBA) : RGBA :=
  let a := srcp.a + dst.a * (255 - srcp.a) / 255
  ⟨if a = 0 then 0 else (srcp.r * srcp.a + dst.r * (dst.a * (255 - srcp.a) / 255)) / a,
   if a = 0 then 0 else (srcp.g * srcp.a + dst.g * (dst.a * (255 - srcp.a) / 255)) / a,
   if a = 0 then 0 else (srcp.b * srcp.a + dst.b * (dst.a * (255 - srcp.a) / 255)) / a,
   a⟩

/-- Modelled dependency (CPython `random`): the generator state.  `seed`
makes the state a function of the seed alone and each draw advances it
deterministically; the MT19937 internals are abstracted to a 64-bit LCG with
the same interface, on which no theorem depends beyond that interface. -/
abbrev RngState := ℕ

/-- One LCG step (64-bit). -/
def rng_next (g : RngState) : RngState :=
  (6364136223846793005 * g + 1442695040888963407) % 18446744073709551616

/-- `random.seed(k)`: the state becomes a function of `k` alone. -/
def rng_seed (k : ℕ) : RngState := rng_next (k + 2463534242)

/-- `random.randint(a, b)`: uniform draw from the closed interval `[a, b]`,
advancing the state; raises `ValueError` on an empty range. -/
def randint (a b : ℤ) (g : RngState) : Except String (ℤ × RngState) :=
  if a ≤ b then
    .ok (a + ((rng_next g % (b - a + 1).toNat : ℕ) : ℤ), rng_next g)
  else .error "randint: empty range"

/-- Checked rational division; Python raises `ZeroDivisionError` on a zero
divisor. -/
def qdiv (x y : ℚ) : Except String ℚ :=
  if y = 0 then .error "division by zero" else .ok (x / y)

/-- Linear interpolation of one 8-bit channel, truncated to an integer as in
lines 26-29 and 141-143 of the script. -/
def interp (u v : ℕ) (t : ℚ) : ℕ :=
  (pyInt ((u : ℚ) + ((v : ℚ) - (u : ℚ)) * t)).toNat

/-- `create_gradient(size, color1, color2)` (lines 19-36).  The script only
calls it with `direction='vertical'` and two 4-component colours, so this is
that branch: one horizontal line per row, colour interpolated at `i / size`. -/
def create_gradientE (size : ℕ) (c1 c2 : RGBA) : Except String (List Op) :=
  (List.range size).mapM fun (i : ℕ) => do
    let t ← qdiv (i : ℚ) (size : ℚ)
    pure (Op.lineSeg 0 (i : ℚ) (size : ℚ) (i : ℚ) 0
      ⟨interp c1.r c2.r t, interp c1.g c2.g t, interp c1.b c2.b t,
       interp c1.a c2.a t⟩)

/-- `draw_rounded_rect(draw, [x1,y1,x2,y2], radius, fill)` (lines 39-51):
two rectangles and four corner ellipses. -/
def draw_rounded_rect (x1 y1 x2 y2 radius : ℚ) (fill : RGBA) : List Op :=
  [Op.rect (x1 + radius) y1 (x2 - radius) y2 fill,
   Op.rect x1 (y1 + radius) x2 (y2 - radius) fill,
   Op.ellipse x1 y1 (x1 + radius * 2) (y1 + radius * 2) fill,
   Op.ellipse (x2 - radius * 2) y1 x2 (y1 + radius * 2) fill,
   Op.ellipse x1 (y2 - radius * 2) (x1 + radius * 2) y2 fill,
   Op.ellipse (x2 - radius * 2) (y2 - radius * 2) x2 y2 fill]

/-- The texture-dot loop (lines 90-95): `int(size * 0.8)` dots at
`randint(padding, size - padding)` positions with `randint(10, 30)` alpha and
diameter `max(1, int(size * 0.003))`. -/
def dotsE (n : ℕ) (padding : ℤ) (g : RngState) :
    Except String (List Op × RngState) :=
  let ds : ℤ := max 1 (pyInt ((n : ℚ) * 0.003))
  (List.range (pyInt ((n : ℚ) * 0.8)).toNat).foldlM
    (fun (acc : List Op × RngState) _ => do
      let xr ← randint padding ((n : ℤ) - padding) acc.2
      let yr ← randint padding ((n : ℤ) - padding) xr.2
      let ar ← randint 10 30 yr.2
      pure (acc.1 ++ [Op.ellipse (xr.1 : ℚ) (yr.1 : ℚ) ((xr.1 + ds : ℤ) : ℚ)
        ((yr.1 + ds : ℤ) : ℚ) ⟨255, 255, 255, ar.1.toNat⟩], ar.2))
    (([] : List Op), g)

/-- The screen-gradient loop (lines 139-144): one horizontal line per row of
the screen, colour interpolated at `i / screen_height`; the loop only runs
(and only divides) when `screen_height` is positive. -/
def screenRowsE (x1 x2 y1 h : ℤ) (c1 c2 : RGBA) : Except String (List Op) :=
  (List.range h.toNat).mapM fun (i : ℕ) => do
    let t ← qdiv (i : ℚ) (h : ℚ)
    let yi : ℤ := y1 + (i : ℤ)
    pure (Op.lineSeg (x1 : ℚ) (yi : ℚ) (x2 : ℚ) (yi : ℚ) 0
      ⟨interp c1.r c2.r t, interp c1.g c2.g t, interp c1.b c2.b t, 255⟩)

/-- The screen-shine loop (lines 147-151): anti-diagonal white lines from
`(x1 + i, y1)` to `(x1, y1 + i)` with alpha `int(40 * (1 - i / shine_size))`;
again the division only happens when `shine_size` is positive. -/
def shineE (x1 y1 sz : ℤ) : Except String (List Op) :=
  (List.range sz.toNat).mapM fun (i : ℕ) => do
    let t ← qdiv (i : ℚ) (sz : ℚ)
    let xi : ℤ := x1 + (i : ℤ)
    let yi : ℤ := y1 + (i : ℤ)
    pure (Op.lineSeg (xi : ℚ) (y1 : ℚ) (x1 : ℚ) (yi : ℚ) 0
      ⟨255, 255, 255, (pyInt (40 * (1 - t))).toNat⟩)

/-- Colour constants of `create_icon` (lines 66-76). -/
def bg_color1 : RGBA := ⟨89, 55, 110, 255⟩

/-- Medium purple/magenta (line 67). -/
def bg_color2 : RGBA := ⟨140, 70, 130, 255⟩

/-- Bright pink/red (line 69). -/
def screen_color1 : RGBA := ⟨233, 69, 96, 255⟩

/-- Light pink (line 70). -/
def screen_color2 : RGBA := ⟨255, 120, 150, 255⟩

/-- Silver (line 72). -/
def imac_body : RGBA := ⟨200, 200, 205, 255⟩

/-- Darker silver (line 73). -/
def imac_stand : RGBA := ⟨180, 180, 185, 255⟩

/-- Dark gray (line 75). -/
def wiper_handle : RGBA := ⟨60, 60, 70, 255⟩

/-- Darker gray (line 76). -/
def wiper_blade : RGBA := ⟨40, 40, 50, 255⟩

/-- The integer dimensions `create_icon` derives from its size argument
(lines 61-119); Python's `//` on integers is floor division (`Int.fdiv`). -/
structure Dims where
  padding : ℤ
  corner_radius : ℤ
  imac_width : ℤ
  imac_height : ℤ
  imac_x : ℤ
  imac_y : ℤ
  bezel : ℤ
  chin_height : ℤ
  bezel_radius : ℤ
  screen_x1 : ℤ
  screen_y1 : ℤ
  screen_x2 : ℤ
  screen_y2 : ℤ
  shine_size : ℤ
deriving DecidableEq, Repr

/-- Compute the derived dimensions for canvas size `n`. -/
def dims (n : ℕ) : Dims :=
  let padding := pyInt ((n : ℚ) * 0.06)
  let imac_width := pyInt ((n : ℚ) * 0.55)
  let imac_height := pyInt ((n : ℚ) * 0.42)
  let imac_x := ((n : ℤ) - imac_width).fdiv 2
  let imac_y := pyInt ((n : ℚ) * 0.22)
  let bezel := pyInt ((n : ℚ) * 0.02)
  { padding := padding
    corner_radius := pyInt ((n : ℚ) * 0.22)
    imac_width := imac_width
    imac_height := imac_height
    imac_x := imac_x
    imac_y := imac_y
    bezel := bezel
    chin_height := pyInt ((n : ℚ) * 0.045)
    bezel_radius := pyInt ((n : ℚ) * 0.03)
    screen_x1 := imac_x + bezel
    screen_y1 := imac_y + bezel
    screen_x2 := imac_x + imac_width - bezel
    screen_y2 := imac_y + imac_height - bezel
    shine_size := pyInt ((n : ℚ) * 0.15) }

/-- The wiper drawing operations (lines 187-262), in draw order: handle
shadow, handle, handle highlight, grip, blade shadow, blade, blade edge.
`c` and `s` stand for `cos(-35*pi/180)` and `sin(-35*pi/180)`; the
perpendicular direction `rad + pi/2` has cosine `-s` and sine `c`. -/
def wiper_ops (n : ℕ) (c s : ℚ) : List Op :=
  let d := dims n
  let wiper_length : ℚ := (pyInt ((n : ℚ) * 0.45) : ℤ)
  let handle_length : ℚ := (pyInt ((n : ℚ) * 0.18) : ℤ)
  let cx : ℚ := (d.imac_x : ℚ) + (d.imac_width : ℚ) * 0.65
  let cy : ℚ := (d.imac_y : ℚ) + (d.imac_height : ℚ) * 0.35
  let hx1 := cx - c * wiper_length * 0.3
  let hy1 := cy - s * wiper_length * 0.3
  let hx2 := cx + c * handle_length
  let hy2 := cy + s * handle_length
  let handle_width := pyInt ((n : ℚ) * 0.035)
  let grip_size : ℚ := (pyInt ((n : ℚ) * 0.025) : ℤ)
  let blade_x1 := cx - c * wiper_length * 0.35
  let blade_y1 := cy - s * wiper_length * 0.35
  let blade_x2 := cx + c * wiper_length * 0.15
  let blade_y2 := cy + s * wiper_length * 0.15
  let bhw : ℚ := (pyInt ((n : ℚ) * 0.04) : ℤ)
  let blade_points : List (ℚ × ℚ) :=
    [(blade_x1 + (-s) * bhw, blade_y1 + c * bhw),
     (blade_x1 - (-s) * bhw, blade_y1 - c * bhw),
     (blade_x2 - (-s) * bhw, blade_y2 - c * bhw),
     (blade_x2 + (-s) * bhw, blade_y2 + c * bhw)]
  [Op.lineSeg (hx1 + 3) (hy1 + 3) (hx2 + 3) (hy2 + 3) (handle_width + 2).toNat
     ⟨0, 0, 0, 60⟩,
   Op.lineSeg hx1 hy1 hx2 hy2 handle_width.toNat wiper_handle,
   Op.lineSeg (hx1 - 1) (hy1 - 1) (hx2 - 1) (hy2 - 1)
     (max 2 (pyInt ((handle_width : ℚ) * 0.3))).toNat ⟨90, 90, 100, 255⟩,
   Op.ellipse (hx2 - grip_size) (hy2 - grip_size) (hx2 + grip_size)
     (hy2 + grip_size) wiper_handle,
   Op.poly (blade_points.map fun p => (p.1 + 3, p.2 + 3)) ⟨0, 0, 0, 50⟩,
   Op.poly blade_points wiper_blade,
   Op.poly
     [(blade_x1 - (-s) * bhw * 0.7, blade_y1 - c * bhw * 0.7),
      (blade_x1 - (-s) * bhw, blade_y1 - c * bhw),
      (blade_x2 - (-s) * bhw, blade_y2 - c * bhw),
      (blade_x2 - (-s) * bhw * 0.7, blade_y2 - c * bhw * 0.7)]
     ⟨70, 70, 80, 255⟩]

/-- The three operations of one sparkle (lines 271-289): two diamond polygons
and an opaque centre dot. -/
def sparkle_ops_at (sx sy : ℚ) (ss : ℤ) : List Op :=
  let ssq : ℚ := (ss : ℚ)
  let ds : ℚ := ((max 1 (pyInt ((ss : ℚ) * 0.3)) : ℤ) : ℚ)
  [Op.poly [(sx, sy - ssq), (sx + ssq * 0.3, sy), (sx, sy + ssq),
            (sx - ssq * 0.3, sy)] ⟨255, 255, 255, 220⟩,
   Op.poly [(sx - ssq, sy), (sx, sy - ssq * 0.3), (sx + ssq, sy),
            (sx, sy + ssq * 0.3)] ⟨255, 255, 255, 220⟩,
   Op.ellipse (sx - ds) (sy - ds) (sx + ds) (sy + ds) ⟨255, 255, 255, 255⟩]

/-- All sparkle operations, at the three positions of lines 265-269. -/
def sparkle_ops (n : ℕ) : List Op :=
  let d := dims n
  sparkle_ops_at ((d.imac_x : ℚ) + (d.imac_width : ℚ) * 0.2)
      ((d.imac_y : ℚ) + (d.imac_height : ℚ) * 0.25) (pyInt ((n : ℚ) * 0.035))
    ++ sparkle_ops_at ((d.imac_x : ℚ) + (d.imac_width : ℚ) * 0.15)
      ((d.imac_y : ℚ) + (d.imac_height : ℚ) * 0.55) (pyInt ((n : ℚ) * 0.025))
    ++ sparkle_ops_at ((d.imac_x : ℚ) + (d.imac_width : ℚ) * 0.35)
      ((d.imac_y : ℚ) + (d.imac_height : ℚ) * 0.15) (pyInt ((n : ℚ) * 0.02))

/-- The operations drawn on `result` after the shine loop (lines 153-289):
logo dot, stand polygon, stand base, the wiper, the sparkles. -/
def after_shine_ops (n : ℕ) (c s : ℚ) : List Op :=
  let d := dims n
  let chin_y := d.imac_y + d.imac_height
  let logo_size := pyInt ((n : ℚ) * 0.02)
  let logo_x := d.imac_x + d.imac_width.fdiv 2
  let logo_y := chin_y + d.chin_height.fdiv 2
  let stand_width := pyInt ((n : ℚ) * 0.12)
  let stand_height := pyInt ((n : ℚ) * 0.08)
  let stand_x := ((n : ℤ) - stand_width).fdiv 2
  let stand_y := d.imac_y + d.imac_height + d.chin_height
  let neck_width := pyInt ((n : ℚ) * 0.06)
  let neck_height := pyInt ((n : ℚ) * 0.04)
  let neck_x := ((n : ℤ) - neck_width).fdiv 2
  let base_y := stand_y + neck_height + stand_height - pyInt ((n : ℚ) * 0.015)
  [Op.ellipse ((logo_x - logo_size : ℤ) : ℚ) ((logo_y - logo_size : ℤ) : ℚ)
     ((logo_x + logo_size : ℤ) : ℚ) ((logo_y + logo_size : ℤ) : ℚ)
     ⟨150, 150, 155, 255⟩,
   Op.poly [(((neck_x : ℤ) : ℚ), ((stand_y : ℤ) : ℚ)),
            (((neck_x + neck_width : ℤ) : ℚ), ((stand_y : ℤ) : ℚ)),
            (((stand_x + stand_width - pyInt ((n : ℚ) * 0.01) : ℤ) : ℚ),
             ((stand_y + neck_height + stand_height : ℤ) : ℚ)),
            (((stand_x + pyInt ((n : ℚ) * 0.01) : ℤ) : ℚ),
             ((stand_y + neck_height + stand_height : ℤ) : ℚ))] imac_stand,
   Op.ellipse ((stand_x - pyInt ((n : ℚ) * 0.02) : ℤ) : ℚ) ((base_y : ℤ) : ℚ)
     ((stand_x + stand_width + pyInt ((n : ℚ) * 0.02) : ℤ) : ℚ)
     ((base_y + pyInt ((n : ℚ) * 0.03) : ℤ) : ℚ) imac_stand]
    ++ wiper_ops n c s ++ sparkle_ops n

/-- The clean-streak triangle drawn on its own canvas (lines 293-301). -/
def clean_ops (n : ℕ) : List Op :=
  let d := dims n
  let screen_width := d.screen_x2 - d.screen_x1
  let screen_height := d.screen_y2 - d.screen_y1
  [Op.poly [(((d.screen_x1 : ℤ) : ℚ), ((d.screen_y1 : ℤ) : ℚ)),
            (((d.screen_x1 + pyInt ((screen_width : ℚ) * 0.4) : ℤ) : ℚ),
             ((d.screen_y1 : ℤ) : ℚ)),
            (((d.screen_x1 : ℤ) : ℚ),
             ((d.screen_y1 + pyInt ((screen_height : ℚ) * 0.7) : ℤ) : ℚ))]
     ⟨255, 255, 255, 25⟩]

/-- The full set of draw lists produced by one `create_icon` run: background
gradient, rounded-rectangle mask, texture dots, the operations drawn on the
composited result, and the clean-streak overlay. -/
structure IconData where
  size : ℕ
  bgOps : List Op
  maskOps : List Op
  dotOps : List Op
  resultOps : List Op
  cleanOps : List Op
deriving DecidableEq, Repr

/-- Assemble the draw lists of `create_icon` (lines 78-305) from the
pre-computed gradient rows, dots, screen rows and shine lines, in the
script's draw order: bezel rounded-rect, body rounded-rect, screen gradient
rows, shine lines, then everything after the shine. -/
def mkIconData (n : ℕ) (c s : ℚ) (bg dots rows shine : List Op) : IconData :=
  let d := dims n
  { size := n
    bgOps := bg
    maskOps := draw_rounded_rect (d.padding : ℚ) (d.padding : ℚ)
      (((n : ℤ) - d.padding : ℤ) : ℚ) (((n : ℤ) - d.padding : ℤ) : ℚ)
      (d.corner_radius : ℚ) ⟨255, 255, 255, 255⟩
    dotOps := dots
    resultOps :=
      draw_rounded_rect ((d.imac_x - 2 : ℤ) : ℚ) ((d.imac_y - 2 : ℤ) : ℚ)
          ((d.imac_x + d.imac_width + 2 : ℤ) : ℚ)
          ((d.imac_y + d.imac_height + d.chin_height + 2 : ℤ) : ℚ)
          (d.bezel_radius : ℚ) ⟨220, 220, 225, 255⟩
        ++ draw_rounded_rect ((d.imac_x : ℤ) : ℚ) ((d.imac_y : ℤ) : ℚ)
          ((d.imac_x + d.imac_width : ℤ) : ℚ)
          ((d.imac_y + d.imac_height + d.chin_height : ℤ) : ℚ)
          (d.bezel_radius : ℚ) imac_body
        ++ rows ++ shine ++ after_shine_ops n c s
    cleanOps := clean_ops n }

/-- `create_icon(size)` (lines 54-305), modelled as a function of the trig
parameters `c`, `s`, the size, and the incoming global RNG state.  The
incoming state is intentionally dropped: line 89 of the script reseeds the
global generator with the fixed seed 42 before any draw.  The returned state
is the state the global generator is left in. -/
def create_icon (c s : ℚ) (n : ℕ) (_g : RngState) :
    Except String (IconData × RngState) := do
  let d := dims n
  let bg ← create_gradientE n bg_color1 bg_color2
  let pr ← dotsE n d.padding (rng_seed 42)
  let rows ← screenRowsE d.screen_x1 d.screen_x2 d.screen_y1
    (d.screen_y2 - d.screen_y1) screen_color1 screen_color2
  let shine ← shineE d.screen_x1 d.screen_y1 d.shine_size
  pure (mkIconData n c s bg pr.1 rows shine, pr.2)

/-- The final RGBA value of pixel `(px, py)` of a `create_icon` canvas:
paste the gradient through the rounded mask (line 99), paste the dot layer
through its own alpha (line 102), replay the result draws (lines 104-289),
and alpha-composite the clean-streak overlay on top (line 303). -/
def iconPixel (d : IconData) (px py : ℚ) : RGBA :=
  let bgPix := paint d.bgOps px py ⟨0, 0, 0, 0⟩
  let dotPix := paint d.dotOps px py ⟨0, 0, 0, 0⟩
  let m := (paint d.maskOps px py ⟨0, 0, 0, 0⟩).r
  let r1 := pasteMask ⟨0, 0, 0, 0⟩ bgPix m
  let r2 := pasteMask r1 dotPix dotPix.a
  let r3 := paint d.resultOps px py r2
  alphaComposite r3 (paint d.cleanOps px py ⟨0, 0, 0, 0⟩)

/-- The alpha of pixel `(px, py)` of `create_icon(n)` (run from the
canonical starting RNG state 0, on which nothing depends), or `none` if the
render raised. -/
def pixelA (c s : ℚ) (n : ℕ) (px py : ℚ) : Option ℕ :=
  match create_icon c s n 0 with
  | .ok r => some ((iconPixel r.1 px py).a)
  | .error _ => none

/-! ## Theorems about the export pipeline (`main`) -/

/-- C1: for every pair (S, K) in the fixed list of ten (logical size, scale)
pairs hard-coded in `main`, the exporter writes a PNG whose pixel dimensions
are exactly (S*K) × (S*K), obtained by resampling the 1024×1024 master image
with the Lanczos filter (not nearest-neighbour). -/
theorem C1_export_dimensions :
    ∀ p ∈ sizes,
      FSOp.save (joinPath iconset_path (filename_for p.1 p.2))
          (ImgD.resized (ImgD.icon 1024) (p.1 * p.2) (p.1 * p.2)
            ResampleFilter.lanczos) ∈ main_trace ∧
      (ImgD.resized (ImgD.icon 1024) (p.1 * p.2) (p.1 * p.2)
          ResampleFilter.lanczos).width = p.1 * p.2 ∧
      (ImgD.resized (ImgD.icon 1024) (p.1 * p.2) (p.1 * p.2)
          ResampleFilter.lanczos).height = p.1 * p.2 ∧
      (ImgD.icon 1024).width = 1024 ∧ (ImgD.icon 1024).height = 1024 ∧
      ResampleFilter.lanczos ≠ ResampleFilter.nearest := by
  decide

/-- Witness for C1 at the concrete pair (16, 2). -/
theorem C1_export_dimensions_witness :
    (16, 2) ∈ sizes ∧
    (FSOp.save (joinPath iconset_path (filename_for 16 2))
        (ImgD.resized (ImgD.icon 1024) (16 * 2) (16 * 2)
          ResampleFilter.lanczos) ∈ main_trace ∧
      (ImgD.resized (ImgD.icon 1024) (16 * 2) (16 * 2)
          ResampleFilter.lanczos).width = 16 * 2 ∧
      (ImgD.resized (ImgD.icon 1024) (16 * 2) (16 * 2)
          ResampleFilter.lanczos).height = 16 * 2 ∧
      (ImgD.icon 1024).width = 1024 ∧ (ImgD.icon 1024).height = 1024 ∧
      ResampleFilter.lanczos ≠ ResampleFilter.nearest) :=
  ⟨by decide, C1_export_dimensions (16, 2) (by decide)⟩

/-- C2: after a run of `main`, the set of icon filenames written into the
iconset directory equals the set of `filename` values of the manifest —
no extras, no omissions, no duplicate manifest entries. -/
theorem C2_manifest_matches_files :
    savedIconsetFiles.toFinset = (contents_json.images.map IconEntry.filename).toFinset ∧
    (contents_json.images.map IconEntry.filename).Nodup := by
  decide

/-- C5 (spec-modelled): invoked with a source image path that does not exist,
the program exits with status 1 and does not create the output directory
tree. -/
theorem C5_missing_source (existing : List String) (p : String)
    (h : p ∉ existing) :
    (main_file_variant existing (some p)).1 = 1 ∧
    ∀ q, FSOp.makedirs q ∉ (main_file_variant existing (some p)).2 := by
  unfold main_file_variant
  simp [h]

/-- Witness for C5 on an empty filesystem and the path "missing.png". -/
theorem C5_missing_source_witness :
    "missing.png" ∉ ([] : List String) ∧
    ((main_file_variant [] (some "missing.png")).1 = 1 ∧
      ∀ q, FSOp.makedirs q ∉ (main_file_variant [] (some "missing.png")).2) :=
  ⟨by simp, C5_missing_source [] "missing.png" (by simp)⟩

/-- C6: every (S, K) pair is exported to the deterministic relative path
`{output_dir}/icon_{S}x{S}@{K}x.png` when K > 1 and
`{output_dir}/icon_{S}x{S}.png` when K = 1 (the `@{K}x` suffix appears
exactly when K > 1), and the output directory is created first. -/
theorem C6_output_paths :
    ∀ p ∈ sizes,
      FSOp.save (joinPath iconset_path (filename_for p.1 p.2))
          (ImgD.resized (ImgD.icon 1024) (p.1 * p.2) (p.1 * p.2)
            ResampleFilter.lanczos) ∈ main_trace ∧
      (1 < p.2 →
        filename_for p.1 p.2 =
          "icon_" ++ toString p.1 ++ "x" ++ toString p.1
            ++ "@" ++ toString p.2 ++ "x" ++ ".png") ∧
      (p.2 = 1 →
        filename_for p.1 p.2 =
          "icon_" ++ toString p.1 ++ "x" ++ toString p.1 ++ ".png" ∧
        (filename_for p.1 p.2).data.contains '@' = false) ∧
      main_trace.head? = some (FSOp.makedirs iconset_path) := by
  decide

/-- Witness for C6 at the concrete pair (512, 1). -/
theorem C6_output_paths_witness :
    (512, 1) ∈ sizes ∧
    (FSOp.save (joinPath iconset_path (filename_for 512 1))
        (ImgD.resized (ImgD.icon 1024) (512 * 1) (512 * 1)
          ResampleFilter.lanczos) ∈ main_trace ∧
      (1 < 1 →
        filename_for 512 1 =
          "icon_" ++ toString 512 ++ "x" ++ toString 512
            ++ "@" ++ toString 1 ++ "x" ++ ".png") ∧
      (1 = 1 →
        filename_for 512 1 =
          "icon_" ++ toString 512 ++ "x" ++ toString 512 ++ ".png" ∧
        (filename_for 512 1).data.contains '@' = false) ∧
      main_trace.head? = some (FSOp.makedirs iconset_path)) :=
  ⟨by decide, C6_output_paths (512, 1) (by decide)⟩

/-- C7: every manifest entry has exactly the fields `filename`, `idiom = "mac"`,
`scale = "{K}x"` and `size = "{S}x{S}"` for its (S, K) pair, and the metadata
block has author "xcode" and integer version 1 — checked against the fully
evaluated manifest. -/
theorem C7_manifest_fields :
    contents_json =
      { images :=
          [{ filename := "icon_16x16.png", idiom := "mac", scale := "1x", size := "16x16" },
           { filename := "icon_16x16@2x.png", idiom := "mac", scale := "2x", size := "16x16" },
           { filename := "icon_32x32.png", idiom := "mac", scale := "1x", size := "32x32" },
           { filename := "icon_32x32@2x.png", idiom := "mac", scale := "2x", size := "32x32" },
           { filename := "icon_128x128.png", idiom := "mac", scale := "1x", size := "128x128" },
           { filename := "icon_128x128@2x.png", idiom := "mac", scale := "2x", size := "128x128" },
           { filename := "icon_256x256.png", idiom := "mac", scale := "1x", size := "256x256" },
           { filename := "icon_256x256@2x.png", idiom := "mac", scale := "2x", size := "256x256" },
           { filename := "icon_512x512.png", idiom := "mac", scale := "1x", size := "512x512" },
           { filename := "icon_512x512@2x.png", idiom := "mac", scale := "2x", size := "512x512" }],
        info := { author := "xcode", version := 1 } } := by
  decide

/-- C9 counterexample: the claim's "never the raw master bytes" clause is
false.  The file's final content is the export loop's write, but that write
resizes the 1024×1024 master to 1024×1024 — its own size — which Pillow
short-circuits to a byte-identical copy, so the final bytes are exactly the
raw master bytes. -/
theorem C9_master_bytes_counterexample :
    (savesTo (joinPath iconset_path "icon_512x512@2x.png")).getLast?
      = some (ImgD.resized (ImgD.icon 1024) 1024 1024 ResampleFilter.lanczos) ∧
    (ImgD.resized (ImgD.icon 1024) 1024 1024 ResampleFilter.lanczos).bytes
      = (ImgD.icon 1024).bytes := by
  decide

/-- C9 amended: `icon_512x512@2x.png` is written twice — first the raw
1024×1024 master, then overwritten by the export loop — so its final content
is the loop's Lanczos resize of the master to its target size 1024×1024;
however, because the target equals the master's own size, that resample is a
byte-identity, so this one file's final bytes are exactly the raw master
bytes, unlike a genuine resample such as the 16×16 export. -/
theorem C9_master_overwritten_amended :
    savesTo (joinPath iconset_path "icon_512x512@2x.png")
      = [ImgD.icon 1024,
         ImgD.resized (ImgD.icon 1024) 1024 1024 ResampleFilter.lanczos] ∧
    (savesTo (joinPath iconset_path "icon_512x512@2x.png")).getLast?
      = some (ImgD.resized (ImgD.icon 1024) 1024 1024 ResampleFilter.lanczos) ∧
    (ImgD.resized (ImgD.icon 1024) 1024 1024 ResampleFilter.lanczos).bytes
      = ImgD.icon 1024 ∧
    (ImgD.resized (ImgD.icon 1024) 16 16 ResampleFilter.lanczos).bytes
      = ImgD.resized (ImgD.icon 1024) 16 16 ResampleFilter.lanczos := by
  decide

/-! ## Helper lemmas for the render model -/

theorem pyInt_of_nonneg {q : ℚ} (h : 0 ≤ q) : pyInt q = ⌊q⌋ := by
  simp [pyInt, not_lt.mpr h]

theorem pyInt_eq {q : ℚ} {z : ℤ} (h0 : 0 ≤ q) (h1 : (z : ℚ) ≤ q)
    (h2 : q < z + 1) : pyInt q = z := by
  rw [pyInt_of_nonneg h0]
  exact Int.floor_eq_iff.mpr ⟨by exact_mod_cast h1, by exact_mod_cast h2⟩

theorem pyInt_nonneg {q : ℚ} (h : 0 ≤ q) : 0 ≤ pyInt q := by
  rw [pyInt_of_nonneg h]
  exact Int.floor_nonneg.mpr h

theorem pyInt_le {q : ℚ} (h : 0 ≤ q) : (pyInt q : ℚ) ≤ q := by
  rw [pyInt_of_nonneg h]
  exact Int.floor_le q

theorem paint_nil (px py : ℚ) (v : RGBA) : paint [] px py v = v := rfl

theorem paint_append (l1 l2 : List Op) (px py : ℚ) (v : RGBA) :
    paint (l1 ++ l2) px py v = paint l2 px py (paint l1 px py v) := by
  simp [paint, List.foldl_append]

theorem paint_cons (op : Op) (l : List Op) (px py : ℚ) (v : RGBA) :
    paint (op :: l) px py v
      = paint l px py (if coversP op px py then op.color else v) := rfl

theorem paint_of_forall_not (l : List Op) (px py : ℚ) (v : RGBA)
    (h : ∀ op ∈ l, ¬ coversP op px py) : paint l px py v = v := by
  induction l with
  | nil => rfl
  | cons op t ih =>
      rw [paint_cons, if_neg (h op (by simp))]
      exact ih fun o ho => h o (by simp [ho])

theorem ok_bind {α β : Type} (a : α) (f : α → Except String β) :
    (Except.ok a >>= f) = f a := rfl

theorem qdiv_ok (x y : ℚ) (h : y ≠ 0) : qdiv x y = .ok (x / y) := by
  simp [qdiv, h]

theorem randint_ok (a b : ℤ) (g : RngState) (h : a ≤ b) :
    randint a b g
      = .ok (a + ((rng_next g % (b - a + 1).toNat : ℕ) : ℤ), rng_next g) := by
  simp [randint, h]

theorem mapM_ok {α : Type} (f : ℕ → Except String α) (l : List ℕ)
    (h : ∀ i ∈ l, ∃ a, f i = .ok a) : ∃ r, l.mapM f = .ok r := by
  induction l with
  | nil => exact ⟨[], rfl⟩
  | cons x t ih =>
      obtain ⟨a, ha⟩ := h x (List.mem_cons_self x t)
      obtain ⟨r, hr⟩ := ih fun i hi => h i (List.mem_cons_of_mem x hi)
      refine ⟨a :: r, ?_⟩
      rw [List.mapM_cons, ha, ok_bind, hr, ok_bind]
      exact rfl

theorem foldlM_ok {σ β : Type} (f : σ → β → Except String σ) (l : List β)
    (init : σ) (h : ∀ acc x, x ∈ l → ∃ r, f acc x = .ok r) :
    ∃ r, l.foldlM f init = .ok r := by
  induction l generalizing init with
  | nil => exact ⟨init, rfl⟩
  | cons x t ih =>
      obtain ⟨r1, hr1⟩ := h init x (List.mem_cons_self x t)
      obtain ⟨r, hr⟩ := ih r1 fun acc y hy => h acc y (List.mem_cons_of_mem x hy)
      exact ⟨r, by rw [List.foldlM_cons, hr1, ok_bind]; exact hr⟩

theorem create_gradientE_ok (n : ℕ) (c1 c2 : RGBA) :
    ∃ l, create_gradientE n c1 c2 = .ok l := by
  apply mapM_ok
  intro i hi
  have hn : ((n : ℚ)) ≠ 0 := by
    have hpos : 0 < n := Nat.pos_of_ne_zero (by
      intro h0
      simp [h0] at hi)
    exact_mod_cast hpos.ne'
  exact ⟨_, by rw [qdiv_ok _ _ hn, ok_bind]; exact rfl⟩

theorem screenRowsE_ok (x1 x2 y1 h : ℤ) (c1 c2 : RGBA) :
    ∃ l, screenRowsE x1 x2 y1 h c1 c2 = .ok l := by
  apply mapM_ok
  intro i hi
  have hh : ((h : ℚ)) ≠ 0 := by
    have hpos : 0 < h := by
      rcases lt_or_le 0 h with hp | hp
      · exact hp
      · rw [List.mem_range, Int.toNat_of_nonpos hp] at hi
        omega
    exact_mod_cast hpos.ne'
  exact ⟨_, by rw [qdiv_ok _ _ hh, ok_bind]; exact rfl⟩

theorem shineE_ok (x1 y1 sz : ℤ) : ∃ l, shineE x1 y1 sz = .ok l := by
  apply mapM_ok
  intro i hi
  have hs : ((sz : ℚ)) ≠ 0 := by
    have hpos : 0 < sz := by
      rcases lt_or_le 0 sz with hp | hp
      · exact hp
      · rw [List.mem_range, Int.toNat_of_nonpos hp] at hi
        omega
    exact_mod_cast hpos.ne'
  exact ⟨_, by rw [qdiv_ok _ _ hs, ok_bind]; exact rfl⟩

theorem dotsE_ok (n : ℕ) (pad : ℤ) (g : RngState)
    (h1 : pad ≤ (n : ℤ) - pad) : ∃ r, dotsE n pad g = .ok r := by
  apply foldlM_ok
  intro acc x _
  simp only [randint_ok _ _ _ h1,
    randint_ok _ _ _ (show (10 : ℤ) ≤ 30 by norm_num), ok_bind]
  exact ⟨_, rfl⟩

theorem padding_le (n : ℕ) : (dims n).padding ≤ (n : ℤ) - (dims n).padding := by
  have hval : (dims n).padding = pyInt ((n : ℚ) * 0.06) := rfl
  have hq : ((dims n).padding : ℚ) ≤ (n : ℚ) * 0.06 := by
    rw [hval]
    exact pyInt_le (by positivity)
  have hn : (0 : ℚ) ≤ (n : ℚ) := Nat.cast_nonneg n
  have hqq : ((dims n).padding : ℚ) ≤ (n : ℚ) - ((dims n).padding : ℚ) := by
    linarith
  exact_mod_cast hqq

theorem create_icon_ok (c s : ℚ) (n : ℕ) (g : RngState) :
    ∃ r, create_icon c s n g = .ok r ∧ r.1.size = n := by
  obtain ⟨bg, hbg⟩ := create_gradientE_ok n bg_color1 bg_color2
  obtain ⟨pr, hdots⟩ := dotsE_ok n (dims n).padding (rng_seed 42) (padding_le n)
  obtain ⟨rows, hrows⟩ := screenRowsE_ok (dims n).screen_x1 (dims n).screen_x2
    (dims n).screen_y1 ((dims n).screen_y2 - (dims n).screen_y1)
    screen_color1 screen_color2
  obtain ⟨shine, hshine⟩ := shineE_ok (dims n).screen_x1 (dims n).screen_y1
    (dims n).shine_size
  refine ⟨(mkIconData n c s bg pr.1 rows shine, pr.2), ?_, rfl⟩
  simp only [create_icon]
  rw [hbg, ok_bind, hdots, ok_bind, hrows, ok_bind, hshine, ok_bind]
  exact rfl

/-! ## Theorems about `create_icon` (C3, C8, C10) -/

/-- C3: two runs of `create_icon` with the same size argument (and the same
trig constants) produce identical results whatever the incoming global RNG
state is, because the texture dots are placed from the fixed seed 42 that the
function installs before drawing: the render is deterministic in its size. -/
theorem C3_deterministic_render (c s : ℚ) (n : ℕ) (g1 g2 : RngState) :
    create_icon c s n g1 = create_icon c s n g2 := rfl

/-- C8 counterexample: it is not true that `create_icon` leaves the global
RNG state unchanged.  At size 16, if the post-call state always equalled the
pre-call state, then — the whole run being independent of the pre-call state
because of the fixed reseeding — the post-call state would equal both 0 and
1 at once. -/
theorem C8_rng_state_counterexample :
    ¬ ∀ g : RngState,
        (create_icon (41 / 50) (-287 / 500) 16 g).map (fun r => r.2)
          = Except.ok g := by
  intro h
  have h0 := h 0
  have h1 := h 1
  have heq : create_icon (41 / 50) (-287 / 500) 16 1
      = create_icon (41 / 50) (-287 / 500) 16 0 := rfl
  rw [heq, h0] at h1
  exact absurd (Except.ok.inj h1) (by norm_num)

/-- C8 amended: `create_icon` allocates its canvas and writes no files, but
it does not leave the global RNG state unchanged — it reseeds the generator
with the fixed seed 42 and advances it while placing the texture dots, so
the post-call state is a function of the size alone, independent of the
pre-call state. -/
theorem C8_rng_state_amended (c s : ℚ) (n : ℕ) (g1 g2 : RngState) :
    (create_icon c s n g1).map (fun r => r.2)
      = (create_icon c s n g2).map (fun r => r.2) := by
  have h12 : create_icon c s n g1 = create_icon c s n g2 := rfl
  rw [h12]

/-- C10: `create_icon` terminates normally (its checked evaluation returns
`ok`, raising no exception) for every size ≥ 1, including the degenerate
small sizes at which padding, bezel, shine size, dot size and blade width
truncate to zero; in particular no division by zero occurs in the gradient
and shine loops, whose checked divisions all succeed because each loop range
is empty whenever its divisor is zero. -/
theorem C10_create_icon_total (n : ℕ) (_hn : 1 ≤ n) (c s : ℚ) (g : RngState) :
    ∃ r, create_icon c s n g = .ok r := by
  obtain ⟨r, hr, -⟩ := create_icon_ok c s n g
  exact ⟨r, hr⟩

/-- Witness for C10 at the degenerate size 1. -/
theorem C10_create_icon_total_witness :
    1 ≤ 1 ∧ ∃ r, create_icon 0 0 1 0 = .ok r :=
  ⟨le_refl 1, C10_create_icon_total 1 (le_refl 1) 0 0 0⟩

/-! ## The size-16 render at pixel (4, 3) (C4)

`create_icon(16)` draws the screen gradient row `y = 3` over pixel `(4, 3)`
(opaque), then the first shine line replaces it with `(255, 255, 255, 40)`;
no later drawing operation touches that pixel, and the clean-streak triangle
composites alpha 25 over it, leaving alpha `25 + 40 * 230 / 255 = 61` —
neither fully opaque nor fully transparent. -/

theorem pyInt16_06 : pyInt (((16 : ℕ) : ℚ) * 0.06) = 0 :=
  pyInt_eq (by norm_num) (by norm_num) (by norm_num)

theorem pyInt16_22 : pyInt (((16 : ℕ) : ℚ) * 0.22) = 3 :=
  pyInt_eq (by norm_num) (by norm_num) (by norm_num)

theorem pyInt16_55 : pyInt (((16 : ℕ) : ℚ) * 0.55) = 8 :=
  pyInt_eq (by norm_num) (by norm_num) (by norm_num)

theorem pyInt16_42 : pyInt (((16 : ℕ) : ℚ) * 0.42) = 6 :=
  pyInt_eq (by norm_num) (by norm_num) (by norm_num)

theorem pyInt16_02 : pyInt (((16 : ℕ) : ℚ) * 0.02) = 0 :=
  pyInt_eq (by norm_num) (by norm_num) (by norm_num)

theorem pyInt16_045 : pyInt (((16 : ℕ) : ℚ) * 0.045) = 0 :=
  pyInt_eq (by norm_num) (by norm_num) (by norm_num)

theorem pyInt16_03 : pyInt (((16 : ℕ) : ℚ) * 0.03) = 0 :=
  pyInt_eq (by norm_num) (by norm_num) (by norm_num)

theorem pyInt16_15 : pyInt (((16 : ℕ) : ℚ) * 0.15) = 2 :=
  pyInt_eq (by norm_num) (by norm_num) (by norm_num)

theorem pyInt16_45 : pyInt (((16 : ℕ) : ℚ) * 0.45) = 7 :=
  pyInt_eq (by norm_num) (by norm_num) (by norm_num)

theorem pyInt16_18 : pyInt (((16 : ℕ) : ℚ) * 0.18) = 2 :=
  pyInt_eq (by norm_num) (by norm_num) (by norm_num)

theorem pyInt16_035 : pyInt (((16 : ℕ) : ℚ) * 0.035) = 0 :=
  pyInt_eq (by norm_num) (by norm_num) (by norm_num)

theorem pyInt16_025 : pyInt (((16 : ℕ) : ℚ) * 0.025) = 0 :=
  pyInt_eq (by norm_num) (by norm_num) (by norm_num)

theorem pyInt16_04 : pyInt (((16 : ℕ) : ℚ) * 0.04) = 0 :=
  pyInt_eq (by norm_num) (by norm_num) (by norm_num)

theorem pyInt16_12 : pyInt (((16 : ℕ) : ℚ) * 0.12) = 1 :=
  pyInt_eq (by norm_num) (by norm_num) (by norm_num)

theorem pyInt16_08 : pyInt (((16 : ℕ) : ℚ) * 0.08) = 1 :=
  pyInt_eq (by norm_num) (by norm_num) (by norm_num)

theorem pyInt16_01 : pyInt (((16 : ℕ) : ℚ) * 0.01) = 0 :=
  pyInt_eq (by norm_num) (by norm_num) (by norm_num)

theorem pyInt16_015 : pyInt (((16 : ℕ) : ℚ) * 0.015) = 0 :=
  pyInt_eq (by norm_num) (by norm_num) (by norm_num)

theorem dims_16 : dims 16 = ⟨0, 3, 8, 6, 4, 3, 0, 0, 0, 4, 3, 12, 9, 2⟩ := by
  simp only [dims, pyInt16_06, pyInt16_22, pyInt16_55, pyInt16_42, pyInt16_02,
    pyInt16_045, pyInt16_03, pyInt16_15]
  decide

theorem pyInt_40 : pyInt (40 : ℚ) = 40 :=
  pyInt_eq (by norm_num) (by norm_num) (by norm_num)

theorem pyInt_20 : pyInt (20 : ℚ) = 20 :=
  pyInt_eq (by norm_num) (by norm_num) (by norm_num)

theorem shineE_16 :
    shineE 4 3 2
      = .ok [Op.lineSeg 4 3 4 3 0 ⟨255, 255, 255, 40⟩,
             Op.lineSeg 5 3 4 4 0 ⟨255, 255, 255, 20⟩] := by
  have h2 : (((2 : ℤ) : ℚ)) ≠ 0 := by norm_num
  have hr : List.range (2 : ℤ).toNat = [0, 1] := rfl
  simp only [shineE]
  rw [hr, List.mapM_cons, List.mapM_cons, List.mapM_nil]
  simp only [qdiv_ok _ _ h2, ok_bind]
  norm_num [pyInt_40, pyInt_20]
  exact rfl

theorem create_icon_16 (c s : ℚ) (bg rows : List Op) (pr : List Op × RngState)
    (hbg : create_gradientE 16 bg_color1 bg_color2 = .ok bg)
    (hdots : dotsE 16 0 (rng_seed 42) = .ok pr)
    (hrows : screenRowsE 4 12 3 6 screen_color1 screen_color2 = .ok rows) :
    create_icon c s 16 0
      = .ok (mkIconData 16 c s bg pr.1 rows
          [Op.lineSeg 4 3 4 3 0 ⟨255, 255, 255, 40⟩,
           Op.lineSeg 5 3 4 4 0 ⟨255, 255, 255, 20⟩], pr.2) := by
  simp only [create_icon, dims_16]
  norm_num
  rw [hbg, ok_bind, hdots, ok_bind, hrows, ok_bind, shineE_16]
  exact rfl

theorem pyInt_zero : pyInt 0 = 0 :=
  pyInt_eq (by norm_num) (by norm_num) (by norm_num)

theorem sparkle_at_zero_not_covered (sx sy : ℚ) (hx : 26 / 5 ≤ sx) :
    ∀ op ∈ sparkle_ops_at sx sy 0, ¬ coversP op 4 3 := by
  intro op hop
  simp only [sparkle_ops_at] at hop
  norm_num [pyInt_zero] at hop
  have hpoly : ¬ coversP (Op.poly [(sx, sy), (sx, sy), (sx, sy), (sx, sy)]
      ⟨255, 255, 255, 220⟩) 4 3 := by
    simp only [coversP, polyCovers]
    rintro ⟨⟨q, hq, hqle⟩, -⟩
    simp only [List.mem_cons, List.not_mem_nil, or_false, or_self] at hq
    subst hq
    simp only at hqle
    linarith
  have hell : ¬ coversP (Op.ellipse (sx - 1) (sy - 1) (sx + 1) (sy + 1)
      ⟨255, 255, 255, 255⟩) 4 3 := by
    simp only [coversP, ellipseCovers]
    rintro ⟨-, h2, -⟩
    have h2a := (abs_le.mp h2).1
    nlinarith
  rcases hop with rfl | rfl
  · exact hpoly
  · exact hell

theorem sparkle_16_not_covered : ∀ op ∈ sparkle_ops 16, ¬ coversP op 4 3 := by
  intro op hop
  simp only [sparkle_ops, dims_16, pyInt16_035, pyInt16_025, pyInt16_02,
    List.mem_append] at hop
  rcases hop with (h | h) | h
  · exact sparkle_at_zero_not_covered _ _ (by norm_num) op h
  · exact sparkle_at_zero_not_covered _ _ (by norm_num) op h
  · exact sparkle_at_zero_not_covered _ _ (by norm_num) op h

theorem wiper_16_not_covered (c s : ℚ) (hc0 : 0 ≤ c) (hc1 : c ≤ 1) :
    ∀ op ∈ wiper_ops 16 c s, ¬ coversP op 4 3 := by
  intro op hop
  simp only [wiper_ops, dims_16, pyInt16_45, pyInt16_18, pyInt16_035,
    pyInt16_025, pyInt16_04, List.mem_cons, List.not_mem_nil, or_false] at hop
  norm_num [pyInt_zero] at hop
  rcases hop with rfl | rfl | rfl | rfl | rfl | rfl | rfl
  · intro hcov
    norm_num [coversP, segCovers] at hcov
    obtain ⟨h1, -⟩ := hcov
    rcases h1 with h | h <;>
      · norm_num [show Int.toNat 2 = 2 from rfl] at h
        linarith
  · intro hcov
    norm_num [coversP, segCovers] at hcov
    obtain ⟨h1, -⟩ := hcov
    rcases h1 with h | h <;>
      · norm_num [show Int.toNat 2 = 2 from rfl] at h
        linarith
  · intro hcov
    norm_num [coversP, segCovers] at hcov
    obtain ⟨h1, -⟩ := hcov
    rcases h1 with h | h <;>
      · norm_num [show Int.toNat 2 = 2 from rfl] at h
        linarith
  · intro hcov
    simp only [coversP, ellipseCovers] at hcov
    obtain ⟨-, h2, -⟩ := hcov
    have h2a := (abs_le.mp h2).1
    norm_num at h2a
    linarith
  · intro hcov
    simp only [coversP, polyCovers] at hcov
    obtain ⟨⟨q, hq, hqle⟩, -⟩ := hcov
    simp only [List.mem_cons, List.not_mem_nil, or_false] at hq
    rcases hq with rfl | rfl | rfl | rfl <;> norm_num at hqle <;> linarith
  · intro hcov
    simp only [coversP, polyCovers] at hcov
    obtain ⟨⟨q, hq, hqle⟩, -⟩ := hcov
    simp only [List.mem_cons, List.not_mem_nil, or_false] at hq
    rcases hq with rfl | rfl | rfl | rfl <;> norm_num at hqle <;> linarith
  · intro hcov
    simp only [coversP, polyCovers] at hcov
    obtain ⟨⟨q, hq, hqle⟩, -⟩ := hcov
    simp only [List.mem_cons, List.not_mem_nil, or_false] at hq
    rcases hq with rfl | rfl | rfl | rfl <;> norm_num at hqle <;> linarith

theorem after_shine_16_not_covered (c s : ℚ) (hc0 : 0 ≤ c) (hc1 : c ≤ 1) :
    ∀ op ∈ after_shine_ops 16 c s, ¬ coversP op 4 3 := by
  intro op hop
  have hfd1 : ((16 : ℤ) - 1).fdiv 2 = 7 := by decide
  have hfd0 : ((16 : ℤ) - 0).fdiv 2 = 8 := by decide
  have hfd8 : (8 : ℤ).fdiv 2 = 4 := by decide
  have hfdz : (0 : ℤ).fdiv 2 = 0 := by decide
  simp only [after_shine_ops, dims_16, pyInt16_02, pyInt16_12, pyInt16_08,
    pyInt16_06, pyInt16_04, pyInt16_01, pyInt16_015, pyInt16_045,
    hfd1, hfd0, hfd8, hfdz,
    List.mem_append, List.mem_cons, List.not_mem_nil, or_false] at hop
  rcases hop with (h3 | hw) | hs
  · rcases h3 with rfl | rfl | rfl
    · norm_num [coversP, ellipseCovers]
    · norm_num [coversP, polyCovers, inTriangle, cross2, triplesOf, pairsOf]
    · norm_num [coversP, ellipseCovers,
        show pyInt (12 / 25 : ℚ) = 0 from
          pyInt_eq (by norm_num) (by norm_num) (by norm_num),
        show Int.fdiv 15 2 = 7 by decide]
  · exact wiper_16_not_covered c s hc0 hc1 op hw
  · exact sparkle_16_not_covered op hs

theorem pyInt_165 : pyInt (16 / 5 : ℚ) = 3 :=
  pyInt_eq (by norm_num) (by norm_num) (by norm_num)

theorem pyInt_215 : pyInt (21 / 5 : ℚ) = 4 :=
  pyInt_eq (by norm_num) (by norm_num) (by norm_num)

theorem clean_cover_16 :
    coversP (Op.poly [(4, 3), (7, 3), (4, 7)] ⟨255, 255, 255, 25⟩) 4 3 := by
  norm_num [coversP, polyCovers, inTriangle, cross2, triplesOf, pairsOf]

theorem clean_16 :
    paint (clean_ops 16) 4 3 ⟨0, 0, 0, 0⟩ = ⟨255, 255, 255, 25⟩ := by
  have hlist : clean_ops 16
      = [Op.poly [(4, 3), (7, 3), (4, 7)] ⟨255, 255, 255, 25⟩] := by
    norm_num [clean_ops, dims_16, pyInt_165, pyInt_215]
  rw [hlist, paint_cons, if_pos clean_cover_16, paint_nil]
  rfl

theorem shine0_covers :
    coversP (Op.lineSeg 4 3 4 3 0 ⟨255, 255, 255, 40⟩) 4 3 := by
  norm_num [coversP, segCovers]

theorem shine1_not_covers :
    ¬ coversP (Op.lineSeg 5 3 4 4 0 ⟨255, 255, 255, 20⟩) 4 3 := by
  norm_num [coversP, segCovers]

theorem pixel16_alpha (c s : ℚ) (hc0 : 0 ≤ c) (hc1 : c ≤ 1) :
    pixelA c s 16 4 3 = some 61 := by
  obtain ⟨bg, hbg⟩ := create_gradientE_ok 16 bg_color1 bg_color2
  obtain ⟨pr, hdots⟩ := dotsE_ok 16 0 (rng_seed 42) (by norm_num)
  obtain ⟨rows, hrows⟩ := screenRowsE_ok 4 12 3 6 screen_color1 screen_color2
  have hicon := create_icon_16 c s bg rows pr hbg hdots hrows
  have hshinepaint : ∀ v : RGBA,
      paint [Op.lineSeg 4 3 4 3 0 ⟨255, 255, 255, 40⟩,
             Op.lineSeg 5 3 4 4 0 ⟨255, 255, 255, 20⟩] 4 3 v
        = ⟨255, 255, 255, 40⟩ := by
    intro v
    rw [paint_cons, if_pos shine0_covers, paint_cons,
      if_neg shine1_not_covers, paint_nil]
    rfl
  simp only [pixelA, hicon]
  simp only [iconPixel, mkIconData]
  rw [paint_append, paint_append, hshinepaint,
    paint_of_forall_not _ _ _ _ (after_shine_16_not_covered c s hc0 hc1),
    clean_16]
  rfl

/-- C4 counterexample: `create_icon` does not return a raster whose pixels
are all fully opaque or fully transparent.  At size 16 (a size `main`
exports), with the trig constants instantiated at rational approximations of
`cos(-35°) ≈ 41/50` and `sin(-35°) ≈ -287/500`, the in-canvas pixel `(4, 3)`
ends with alpha 61: the first screen-shine line writes alpha 40 there and the
clean-streak overlay composites alpha 25 over it. -/
theorem C4_alpha_counterexample :
    pixelA (41 / 50) (-287 / 500) 16 4 3 = some 61 ∧
    pixelA (41 / 50) (-287 / 500) 16 4 3 ≠ some 0 ∧
    pixelA (41 / 50) (-287 / 500) 16 4 3 ≠ some 255 ∧
    (4 : ℕ) < 16 ∧ (3 : ℕ) < 16 := by
  have h := pixel16_alpha (41 / 50) (-287 / 500) (by norm_num) (by norm_num)
  refine ⟨h, by rw [h]; simp, by rw [h]; simp, by norm_num, by norm_num⟩

/-- C4 amended: for every size n ≥ 1, `create_icon(n)` returns an n×n RGBA
raster, but its pixels are not all fully opaque or fully transparent:
semi-transparent pixels occur — for every value of the wiper trig constant
`c = cos(-35·π/180)` in `[0, 1]` (which contains the true value ≈ 0.8192)
the pixel `(4, 3)` of the size-16 render has alpha 61. -/
theorem C4_alpha_amended (c s : ℚ) (hc0 : 0 ≤ c) (hc1 : c ≤ 1) :
    (∀ n : ℕ, ∀ g : RngState,
       ∃ r, create_icon c s n g = .ok r ∧ r.1.size = n) ∧
    pixelA c s 16 4 3 = some 61 ∧ (61 : ℕ) ≠ 0 ∧ (61 : ℕ) ≠ 255 :=
  ⟨fun n g => create_icon_ok c s n g, pixel16_alpha c s hc0 hc1,
   by norm_num, by norm_num⟩

/-- Witness for the amended C4 at the rational trig approximations. -/
theorem C4_alpha_amended_witness :
    (0 ≤ (41 / 50 : ℚ) ∧ (41 / 50 : ℚ) ≤ 1) ∧
    ((∀ n : ℕ, ∀ g : RngState,
        ∃ r, create_icon (41 / 50) (-287 / 500) n g = .ok r ∧ r.1.size = n) ∧
      pixelA (41 / 50) (-287 / 500) 16 4 3 = some 61 ∧
      (61 : ℕ) ≠ 0 ∧ (61 : ℕ) ≠ 255) :=
  ⟨⟨by norm_num, by norm_num⟩,
   C4_alpha_amended (41 / 50) (-287 / 500) (by norm_num) (by norm_num)⟩

end MacClean
